import Mathlib

/-!
Verification of the factoroids game simulation (src/main.rs).

The simulation is embedded shallowly over an arbitrary linear ordered
field `K` standing for the f32 scalars of the source; theorems that
depend on the meaning of the square root are stated at `K := ℝ` with
`Real.sqrt`, everything else is generic and executable at `K := ℚ`.
Square roots, cosines and sines appear in the source only through the
`glam` vector library; the corresponding operations here take the
scalar function as an explicit argument so that every definition stays
computable.
-/

namespace Factoroids

variable {K : Type} [LinearOrderedField K]

/-- TIME_STEP constant of the source: 1/120 seconds per physics sub-step. -/
def timeStep : K := 1 / 120

/-- Radius range of a Big asteroid, `BIG_ASTEROID: Range<f32> = 50.0..60.0`. -/
def BIG_ASTEROID : K × K := (50, 60)

/-- Radius range of a Medium asteroid, `MEDIUM_ASTEROID: Range<f32> = 30.0..40.0`. -/
def MEDIUM_ASTEROID : K × K := (30, 40)

/-- Radius range of a Small asteroid, `SMALL_ASTEROID: Range<f32> = 10.0..20.0`. -/
def SMALL_ASTEROID : K × K := (10, 20)

/-- Membership test of a half-open range, Rust `Range::contains`:
`lo <= x && x < hi`. -/
def rangeContains (r : K × K) (x : K) : Prop :=
  r.1 ≤ x ∧ x < r.2

instance (r : K × K) (x : K) : Decidable (rangeContains r x) := by
  unfold rangeContains; infer_instance

/-- Squared Euclidean length of a 2D vector, glam `Vec2::length_squared`. -/
def len2 (v : K × K) : K := v.1 * v.1 + v.2 * v.2

/-- Uniform draw from a half-open range, Rust `rng.gen_range(lo..hi)`:
the random source supplies `u` in `[0,1)` and the draw is `lo + u * (hi - lo)`. -/
def genRange (r : K × K) (u : K) : K := r.1 + u * (r.2 - r.1)

/-- Component `Spatial`: position (2D), rotation (radians), collision radius. -/
structure Spatial (K : Type) where
  position : K × K
  rotation : K
  radius : K
deriving DecidableEq

/-- Circle intersection test `Spatial::intersects`.  The source compares
the Euclidean distance `(self.position - other.position).length()` with
`self.radius + other.radius`; here the comparison is written in the
square-root-free equivalent form (squared distance against squared radius
sum), which agrees with the source test whenever the radii are
non-negative — that equivalence is proved in the collision theorem below. -/
def Spatial.intersects (a b : Spatial K) : Bool :=
  decide (len2 (a.position - b.position) < (a.radius + b.radius) ^ 2)

/-- Bevy repeating/non-repeating countdown timer, the part of its state the
weapon uses: total duration, elapsed time, repeating flag and the
finished flag set by the last tick. -/
structure Timer (K : Type) where
  duration : K
  elapsed : K
  repeating : Bool
  finished : Bool
deriving DecidableEq

/-- Construction `Timer::new(duration, repeating)`: zero elapsed, not finished. -/
def Timer.new (duration : K) (repeating : Bool) : Timer K :=
  ⟨duration, 0, repeating, false⟩

/-- Bevy `Timer::tick(delta)`: a finished non-repeating timer is left alone;
otherwise elapsed time advances by `delta`, the timer is finished when the
new elapsed time reaches the duration, and a finished repeating timer wraps
its elapsed time by the duration (`elapsed - duration * times_finished`
with `times_finished = floor(elapsed / duration)`). -/
def Timer.tick [FloorRing K] (t : Timer K) (delta : K) : Timer K :=
  if !t.repeating && t.finished then t
  else
    let e := t.elapsed + delta
    if t.duration ≤ e then
      if t.repeating then
        { t with elapsed := e - t.duration * (⌊e / t.duration⌋ : ℤ), finished := true }
      else
        { t with elapsed := t.duration, finished := true }
    else
      { t with elapsed := e, finished := false }

/-- Component `Weapon`: cooldown timer plus the latched trigger flag. -/
structure Weapon (K : Type) where
  cooldown : Timer K
  triggered : Bool
deriving DecidableEq

/-- Construction `Weapon::new(rate_of_fire)`: repeating cooldown timer,
trigger not latched. -/
def Weapon.new (rateOfFire : K) : Weapon K :=
  ⟨Timer.new rateOfFire true, false⟩

/-- Component `ThrustEngine`: force magnitude and the `on` flag
(field renamed `isOn` here because `on` is reserved in Lean). -/
structure ThrustEngine (K : Type) where
  force : K
  isOn : Bool
deriving DecidableEq

/-- An entity of the game world: its identifier together with the
components of the source that it may carry (`Option`/`Bool` encode
presence), mirroring the component set declared in src/main.rs. -/
structure Entity (K : Type) where
  id : ℕ
  spatial : Spatial K
  velocity : Option (K × K) := none
  angularVelocity : Option K := none
  speedLimit : Option K := none
  damping : Option K := none
  thrustEngine : Option (ThrustEngine K) := none
  steeringControl : Option K := none
  weapon : Option (Weapon K) := none
  ship : Bool := false
  bullet : Bool := false
  asteroid : Bool := false
  boundaryWrap : Bool := false
  boundaryRemoval : Bool := false
deriving DecidableEq

/-- Loop body of `movement_system` for one entity: when a `Velocity` is
present the position advances by `velocity * TIME_STEP`, and when an
`AngularVelocity` is present the rotation advances by
`angular_velocity * TIME_STEP`. -/
def movementStep (e : Entity K) : Entity K :=
  { e with spatial :=
      let s := e.spatial
      let s := match e.velocity with
        | some v => { s with position := s.position + (timeStep : K) • v }
        | none => s
      match e.angularVelocity with
        | some w => { s with rotation := s.rotation + w * timeStep }
        | none => s }

/-- System `movement_system`: the movement loop body applied to every entity. -/
def movement_system (w : List (Entity K)) : List (Entity K) :=
  w.map movementStep

/-- Vector operation `Vec2::clamp_length_max(max)` of the glam library used
by the source: if the squared length exceeds `max * max`, rescale to length
`max` by multiplying with `max / sqrt(length_sq)`; otherwise return the
vector unchanged.  The square root function is an explicit argument. -/
def clampLengthMax (sq : K → K) (v : K × K) (m : K) : K × K :=
  let lengthSq := len2 v
  if m * m < lengthSq then (m * (sq lengthSq)⁻¹) • v else v

/-- Loop body of `speed_limit_system` for one entity: entities carrying both
a `Velocity` and a `SpeedLimit` have their velocity clamped with
`clamp_length_max`; all other entities are untouched. -/
def speedLimitStep (sq : K → K) (e : Entity K) : Entity K :=
  match e.velocity, e.speedLimit with
  | some v, some l => { e with velocity := some (clampLengthMax sq v l) }
  | _, _ => e

/-- Loop body of `damping_system` for one entity: entities carrying both a
`Velocity` and a `Damping` have their velocity multiplied by the damping
factor (`velocity.0 *= damping.0`); all other entities are untouched. -/
def dampingStep (e : Entity K) : Entity K :=
  match e.velocity, e.damping with
  | some v, some f => { e with velocity := some (f • v) }
  | _, _ => e

/-- Loop body of `weapon_control_system` for one weapon:
`weapon.triggered = weapon.triggered || keyboard_input.just_pressed(Space)`. -/
def weaponControlStep (justPressed : Bool) (w : Weapon K) : Weapon K :=
  { w with triggered := w.triggered || justPressed }

/-- The data of a bullet entity spawned by the weapon system: its `Spatial`
and its `Velocity` (the spawned entity additionally carries the `Bullet`
and `BoundaryRemoval` markers). -/
structure BulletSpawn (K : Type) where
  spatial : Spatial K
  velocity : K × K
deriving DecidableEq

/-- Loop body of `weapon_system` for one ship: tick the cooldown timer by
the elapsed time; when the ticked timer is finished and the trigger is
latched, clear the latch and spawn one bullet at
`position + direction * radius` with velocity `direction * 1000`, where
`direction = (cos rotation, sin rotation)`.  The cosine and sine functions
are explicit arguments.  Returns the updated weapon and the spawned
bullet, if any. -/
def weaponStep [FloorRing K] (rcos rsin : K → K) (delta : K)
    (spatial : Spatial K) (weapon : Weapon K) : Weapon K × Option (BulletSpawn K) :=
  let cd := weapon.cooldown.tick delta
  if cd.finished && weapon.triggered then
    let bulletDir : K × K := (rcos spatial.rotation, rsin spatial.rotation)
    let bulletVel := (1000 : K) • bulletDir
    let bulletPos := spatial.position + spatial.radius • bulletDir
    ({ cooldown := cd, triggered := false },
      some ⟨⟨bulletPos, 0, 2⟩, bulletVel⟩)
  else
    ({ cooldown := cd, triggered := weapon.triggered }, none)

/-- Axis rule of `boundary_wrap_system`: if the position plus twice the
radius is left of the negative half extent, teleport to just outside the
positive edge; if the position minus twice the radius is right of the
positive half extent, teleport to just outside the negative edge. -/
def boundaryWrapAxis (half r x : K) : K :=
  if x + r * 2 < -half then half + r * 2
  else if half < x - r * 2 then -half - r * 2
  else x

/-- The `boundary_wrap_system` update of one `Spatial`, applying the axis
rule to x with the half window width and to y with the half window
height. -/
def boundaryWrapSpatial (width height : K) (s : Spatial K) : Spatial K :=
  { s with position :=
      (boundaryWrapAxis (width / 2) s.radius s.position.1,
        boundaryWrapAxis (height / 2) s.radius s.position.2) }

/-- Loop body of `boundary_wrap_system` for one entity: only entities with
the `BoundaryWrap` marker are wrapped (query `With<BoundaryWrap>`). -/
def boundaryWrapStep (width height : K) (e : Entity K) : Entity K :=
  if e.boundaryWrap then { e with spatial := boundaryWrapSpatial width height e.spatial }
  else e

/-- Entities of the world that carry the `Ship` marker (query `With<Ship>`). -/
def shipsOf (w : List (Entity K)) : List (Entity K) :=
  w.filter (fun e => e.ship)

/-- Entities of the world that carry the `Asteroid` marker. -/
def asteroidsOf (w : List (Entity K)) : List (Entity K) :=
  w.filter (fun e => e.asteroid)

/-- Entities of the world that carry the `Bullet` marker. -/
def bulletsOf (w : List (Entity K)) : List (Entity K) :=
  w.filter (fun e => e.bullet)

/-- Output of one run of `collision_system`: the queued
`HitEvent<Asteroid, Bullet>` events (asteroid id, bullet id), the queued
`HitEvent<Asteroid, Ship>` events (a queue the source registers but never
writes), and the despawn commands issued directly. -/
structure CollisionOutput where
  asteroidBulletHits : List (ℕ × ℕ)
  shipAsteroidHits : List (ℕ × ℕ)
  despawns : List ℕ
deriving DecidableEq

/-- System `collision_system`: for every bullet and every asteroid whose
circles intersect, queue a `HitEvent<Asteroid, Bullet>`; for every ship
and every asteroid whose circles intersect, despawn the asteroid directly
(no event is queued for it).  The world itself is only read. -/
def collision_system (w : List (Entity K)) : CollisionOutput :=
  { asteroidBulletHits :=
      (bulletsOf w).flatMap fun b =>
        ((asteroidsOf w).filter fun a => b.spatial.intersects a.spatial).map
          fun a => (a.id, b.id)
  , shipAsteroidHits := []
  , despawns :=
      (shipsOf w).flatMap fun s =>
        ((asteroidsOf w).filter fun a => s.spatial.intersects a.spatial).map
          fun a => a.id }

/-- Application of queued despawn commands: every entity whose id was
despawned is removed from the world, all other entities are kept
unchanged. -/
def applyDespawns (ids : List ℕ) (w : List (Entity K)) : List (Entity K) :=
  w.filter (fun e => !(ids.contains e.id))

/-- Loop body of `asteroid_hit_system` for one `HitEvent<Asteroid, Bullet>`:
look up the hit asteroid `Spatial` (the lookup result is the `Option`
argument; `none` when the entity no longer exists).  On a successful
lookup, if the radius is in the Big range queue three spawn-intent events
with the same position and a radius drawn from the Medium range; if in
the Medium range, two events with a radius drawn from the Small range;
otherwise none.  Both the asteroid and the bullet are despawned
unconditionally.  `u` is the `[0,1)` sample behind the single
`gen_range` draw of the taken branch.  Returns the queued
`AsteroidSpawnEvent` list and the despawn commands. -/
def asteroidHitStep (u : K) (lookup : Option (Spatial K)) (asteroid bullet : ℕ) :
    List (Spatial K) × List ℕ :=
  ( match lookup with
    | some spatial =>
      if rangeContains BIG_ASTEROID spatial.radius then
        let s := { spatial with radius := genRange MEDIUM_ASTEROID u }
        [s, s, s]
      else if rangeContains MEDIUM_ASTEROID spatial.radius then
        let s := { spatial with radius := genRange SMALL_ASTEROID u }
        [s, s]
      else []
    | none => []
  , [asteroid, bullet] )

/-- Vector operation `Vec2::normalize_or_zero()` of the glam library: with
`rcp` the reciprocal of the length, return `v * rcp` when `rcp` is finite
and positive, and the zero vector otherwise (in an ordered field there are
no infinities, so only the sign test remains). -/
def normalizeOrZero (sq : K → K) (v : K × K) : K × K :=
  let rcp := (sq (len2 v))⁻¹
  if 0 < rcp then rcp • v else (0, 0)

/-- Size-dependent speed draw of `asteroid_generation_system`: a radius in
the Big range draws the speed from `30..60`, in the Medium range from
`60..80`, and otherwise from `80..100`. -/
def asteroidSpeedScale (u radius : K) : K :=
  if rangeContains BIG_ASTEROID radius then genRange (30, 60) u
  else if rangeContains MEDIUM_ASTEROID radius then genRange (60, 80) u
  else genRange (80, 100) u

/-- Velocity assigned by `asteroid_generation_system`: with `interior` the
random point drawn inside the viewport, the velocity is
`(interior - position).normalize_or_zero() * scale`. -/
def asteroidVelocity (sq : K → K) (interior position : K × K) (scale : K) : K × K :=
  scale • normalizeOrZero sq (interior - position)

/-- Modelled from the spec sentence of claim C8, for comparison with
`asteroidVelocity`: the normalized direction from the random interior
point back toward the spawn position is `position - interior`,
normalized, and the velocity scales that direction. -/
def specAsteroidVelocity (sq : K → K) (interior position : K × K) (scale : K) : K × K :=
  scale • normalizeOrZero sq (position - interior)

/-! Helper lemmas. -/

theorem genRange_mem (lo hi u : K) (hlh : lo < hi) (h0 : 0 ≤ u) (h1 : u < 1) :
    lo ≤ genRange (lo, hi) u ∧ genRange (lo, hi) u < hi := by
  unfold genRange
  constructor
  · nlinarith
  · nlinarith

theorem boundaryWrapAxis_no_exit (half r x : K) (hh : 0 ≤ half) (hr : 0 ≤ r) :
    ¬(boundaryWrapAxis half r x + r * 2 < -half)
    ∧ ¬(half < boundaryWrapAxis half r x - r * 2) := by
  unfold boundaryWrapAxis
  split_ifs with h1 h2 <;> constructor <;> intro h <;> linarith

theorem boundaryWrapAxis_idem (half r x : K) (hh : 0 ≤ half) (hr : 0 ≤ r) :
    boundaryWrapAxis half r (boundaryWrapAxis half r x) = boundaryWrapAxis half r x := by
  have h := boundaryWrapAxis_no_exit half r x hh hr
  generalize boundaryWrapAxis half r x = y at h ⊢
  unfold boundaryWrapAxis
  rw [if_neg h.1, if_neg h.2]

/-! Claim theorems. -/

/-- C10: the motion integration step changes only the position (by
`velocity * TIME_STEP` when a `Velocity` is present) and the rotation (by
`angular_velocity * TIME_STEP` when an `AngularVelocity` is present); the
radius, the `Velocity`, the `AngularVelocity` and every other component of
the entity are unchanged.  The position and rotation updates are stated
with a default of zero, which also covers the absent-component case. -/
theorem movement_system_frame (e : Entity K) :
    (movementStep e).spatial.position
        = e.spatial.position + (timeStep : K) • (e.velocity.getD (0, 0))
    ∧ (movementStep e).spatial.rotation
        = e.spatial.rotation + e.angularVelocity.getD 0 * timeStep
    ∧ (movementStep e).spatial.radius = e.spatial.radius
    ∧ (movementStep e).velocity = e.velocity
    ∧ (movementStep e).angularVelocity = e.angularVelocity
    ∧ (movementStep e).id = e.id
    ∧ (movementStep e).speedLimit = e.speedLimit
    ∧ (movementStep e).damping = e.damping
    ∧ (movementStep e).thrustEngine = e.thrustEngine
    ∧ (movementStep e).steeringControl = e.steeringControl
    ∧ (movementStep e).weapon = e.weapon
    ∧ (movementStep e).ship = e.ship
    ∧ (movementStep e).bullet = e.bullet
    ∧ (movementStep e).asteroid = e.asteroid
    ∧ (movementStep e).boundaryWrap = e.boundaryWrap
    ∧ (movementStep e).boundaryRemoval = e.boundaryRemoval := by
  obtain ⟨i, s, v, av, rest⟩ := e
  cases v <;> cases av <;> simp [movementStep]

/-- C2: for every Asteroid-Bullet hit event, the hit-resolution step
despawns both the asteroid and the bullet unconditionally, and a failed
Spatial lookup (the referenced asteroid no longer exists) produces no
spawn-intent events: the event is a no-op apart from the despawns. -/
theorem asteroid_hit_despawns_unconditionally (u : K) (lookup : Option (Spatial K))
    (a b : ℕ) :
    (asteroidHitStep u lookup a b).2 = [a, b]
    ∧ (asteroidHitStep u none a b).1 = ([] : List (Spatial K)) := by
  cases lookup <;> simp [asteroidHitStep]

/-- C1: for a hit event whose asteroid still exists, the hit-resolution
step emits exactly 3 spawn-intent events with radius in the Medium range
`[30,40)` when the asteroid radius is in the Big range `[50,60)`, exactly
2 events with radius in the Small range `[10,20)` when it is in the
Medium range, and none when it is in the Small range; every emitted event
carries the position of the hit asteroid. -/
theorem asteroid_hit_split_counts (u : K) (s : Spatial K) (a b : ℕ)
    (h0 : 0 ≤ u) (h1 : u < 1) :
    ((50 ≤ s.radius ∧ s.radius < 60) →
      (asteroidHitStep u (some s) a b).1.length = 3
      ∧ ∀ sp ∈ (asteroidHitStep u (some s) a b).1,
          (30 ≤ sp.radius ∧ sp.radius < 40) ∧ sp.position = s.position)
    ∧ ((30 ≤ s.radius ∧ s.radius < 40) →
      (asteroidHitStep u (some s) a b).1.length = 2
      ∧ ∀ sp ∈ (asteroidHitStep u (some s) a b).1,
          (10 ≤ sp.radius ∧ sp.radius < 20) ∧ sp.position = s.position)
    ∧ ((10 ≤ s.radius ∧ s.radius < 20) →
      (asteroidHitStep u (some s) a b).1 = []) := by
  have hmed : 30 ≤ genRange (MEDIUM_ASTEROID : K × K) u
      ∧ genRange (MEDIUM_ASTEROID : K × K) u < 40 := by
    simpa [MEDIUM_ASTEROID] using genRange_mem (30 : K) 40 u (by norm_num) h0 h1
  have hsmall : 10 ≤ genRange (SMALL_ASTEROID : K × K) u
      ∧ genRange (SMALL_ASTEROID : K × K) u < 20 := by
    simpa [SMALL_ASTEROID] using genRange_mem (10 : K) 20 u (by norm_num) h0 h1
  refine ⟨fun h => ?_, fun h => ?_, fun h => ?_⟩
  · have hb : rangeContains (BIG_ASTEROID : K × K) s.radius := by
      simpa [rangeContains, BIG_ASTEROID] using h
    simp only [asteroidHitStep, if_pos hb]
    refine ⟨rfl, ?_⟩
    intro sp hsp
    simp only [List.mem_cons, List.not_mem_nil, or_false] at hsp
    rcases hsp with h' | h' | h' <;> subst h' <;> exact ⟨⟨hmed.1, hmed.2⟩, rfl⟩
  · have hnb : ¬ rangeContains (BIG_ASTEROID : K × K) s.radius := by
      simp only [rangeContains, BIG_ASTEROID, not_and, not_lt]
      intro h50
      linarith [h.2]
    have hm : rangeContains (MEDIUM_ASTEROID : K × K) s.radius := by
      simpa [rangeContains, MEDIUM_ASTEROID] using h
    simp only [asteroidHitStep, if_neg hnb, if_pos hm]
    refine ⟨rfl, ?_⟩
    intro sp hsp
    simp only [List.mem_cons, List.not_mem_nil, or_false] at hsp
    rcases hsp with h' | h' <;> subst h' <;> exact ⟨⟨hsmall.1, hsmall.2⟩, rfl⟩
  · have hnb : ¬ rangeContains (BIG_ASTEROID : K × K) s.radius := by
      simp only [rangeContains, BIG_ASTEROID, not_and, not_lt]
      intro h50
      linarith [h.2]
    have hnm : ¬ rangeContains (MEDIUM_ASTEROID : K × K) s.radius := by
      simp only [rangeContains, MEDIUM_ASTEROID, not_and, not_lt]
      intro h30
      linarith [h.2]
    simp [asteroidHitStep, if_neg hnb, if_neg hnm]

/-- Witness for C1 at a concrete input: a Big asteroid of radius 55 at
position (1,2), hit with the random sample 1/2, yields three fragments. -/
theorem asteroid_hit_split_counts_witness :
    ((0 : ℚ) ≤ 1/2 ∧ (1/2 : ℚ) < 1)
    ∧ ((asteroidHitStep (1/2 : ℚ) (some ⟨(1, 2), 0, 55⟩) 7 8).1.length = 3
      ∧ ∀ sp ∈ (asteroidHitStep (1/2 : ℚ) (some ⟨(1, 2), 0, 55⟩) 7 8).1,
          (30 ≤ sp.radius ∧ sp.radius < 40) ∧ sp.position = (1, 2)) :=
  ⟨⟨by norm_num, by norm_num⟩,
    (asteroid_hit_split_counts (1/2 : ℚ) ⟨(1, 2), 0, 55⟩ 7 8
      (by norm_num) (by norm_num)).1 ⟨by norm_num, by norm_num⟩⟩

/-- Entity used by the boundary wrap witness: a wrapping entity of radius
10 at the origin of an 800 by 600 viewport. -/
def wrapWitnessEntity : Entity ℚ :=
  { id := 0, spatial := ⟨(0, 0), 0, 10⟩, boundaryWrap := true }

/-- C5: for an entity with the `BoundaryWrap` marker, a non-negative
radius and a viewport of non-negative extent, the wrap rule is idempotent
under immediate re-check: applying the wrap rule to the position produced
by a wrap leaves that position unchanged, and the wrapped position
satisfies neither exit condition on either axis. -/
theorem boundary_wrap_idempotent (width height : K) (e : Entity K)
    (hw : 0 ≤ width) (hh : 0 ≤ height) (hr : 0 ≤ e.spatial.radius)
    (hb : e.boundaryWrap = true) :
    boundaryWrapStep width height (boundaryWrapStep width height e)
        = boundaryWrapStep width height e
    ∧ ¬((boundaryWrapSpatial width height e.spatial).position.1
          + (boundaryWrapSpatial width height e.spatial).radius * 2 < -(width / 2))
    ∧ ¬(width / 2 < (boundaryWrapSpatial width height e.spatial).position.1
          - (boundaryWrapSpatial width height e.spatial).radius * 2)
    ∧ ¬((boundaryWrapSpatial width height e.spatial).position.2
          + (boundaryWrapSpatial width height e.spatial).radius * 2 < -(height / 2))
    ∧ ¬(height / 2 < (boundaryWrapSpatial width height e.spatial).position.2
          - (boundaryWrapSpatial width height e.spatial).radius * 2) := by
  have hw2 : (0 : K) ≤ width / 2 := by linarith
  have hh2 : (0 : K) ≤ height / 2 := by linarith
  have hx := boundaryWrapAxis_no_exit (width / 2) e.spatial.radius e.spatial.position.1 hw2 hr
  have hy := boundaryWrapAxis_no_exit (height / 2) e.spatial.radius e.spatial.position.2 hh2 hr
  have hsp : boundaryWrapSpatial width height (boundaryWrapSpatial width height e.spatial)
      = boundaryWrapSpatial width height e.spatial := by
    have h1 := boundaryWrapAxis_idem (width / 2) e.spatial.radius e.spatial.position.1 hw2 hr
    have h2 := boundaryWrapAxis_idem (height / 2) e.spatial.radius e.spatial.position.2 hh2 hr
    simp [boundaryWrapSpatial, h1, h2]
  refine ⟨?_, ?_, ?_, ?_, ?_⟩
  · simp [boundaryWrapStep, hb, hsp]
  · simpa [boundaryWrapSpatial] using hx.1
  · simpa [boundaryWrapSpatial] using hx.2
  · simpa [boundaryWrapSpatial] using hy.1
  · simpa [boundaryWrapSpatial] using hy.2

/-- Witness for C5 at a concrete input: the wrap rule on an 800 by 600
viewport is idempotent for a marked entity of radius 10 at the origin. -/
theorem boundary_wrap_idempotent_witness :
    ((0 : ℚ) ≤ 800 ∧ (0 : ℚ) ≤ 600 ∧ (0 : ℚ) ≤ wrapWitnessEntity.spatial.radius
      ∧ wrapWitnessEntity.boundaryWrap = true)
    ∧ boundaryWrapStep (800 : ℚ) 600 (boundaryWrapStep 800 600 wrapWitnessEntity)
        = boundaryWrapStep 800 600 wrapWitnessEntity :=
  ⟨⟨by norm_num, by norm_num, by norm_num [wrapWitnessEntity], rfl⟩,
    (boundary_wrap_idempotent 800 600 wrapWitnessEntity (by norm_num) (by norm_num)
      (by norm_num [wrapWitnessEntity]) rfl).1⟩

/-- C4: in a weapon tick, a bullet is spawned if and only if the ticked
cooldown timer is finished and the `Triggered` latch is set; the spawned
bullet sits at the ship position plus the facing direction times the ship
radius, its velocity is the facing direction scaled by the fixed magnitude
1000, and firing clears the latch.  When the ticked cooldown is not
finished no bullet spawns and the latch is unchanged; in particular a
trigger press while the cooldown is running (the `weapon_control_system`
latch composed with a non-finishing tick) fires nothing and leaves the
latch set, and a later tick that finishes the cooldown fires exactly one
bullet and clears the latch. -/
theorem weapon_fires_iff [FloorRing K] (rcos rsin : K → K) (delta : K)
    (spatial : Spatial K) (weapon : Weapon K) :
    ((weaponStep rcos rsin delta spatial weapon).2.isSome
        = ((weapon.cooldown.tick delta).finished && weapon.triggered))
    ∧ ((weapon.cooldown.tick delta).finished = true → weapon.triggered = true →
        (weaponStep rcos rsin delta spatial weapon).2
          = some ⟨⟨spatial.position
                    + spatial.radius • (rcos spatial.rotation, rsin spatial.rotation), 0, 2⟩,
                  (1000 : K) • (rcos spatial.rotation, rsin spatial.rotation)⟩
        ∧ (weaponStep rcos rsin delta spatial weapon).1.triggered = false)
    ∧ ((weapon.cooldown.tick delta).finished = false →
        (weaponStep rcos rsin delta spatial weapon).2 = none
        ∧ (weaponStep rcos rsin delta spatial weapon).1.triggered = weapon.triggered)
    ∧ ((weaponControlStep true weapon).triggered = true)
    ∧ (((weaponControlStep true weapon).cooldown.tick delta).finished = false →
        (weaponStep rcos rsin delta spatial (weaponControlStep true weapon)).2 = none
        ∧ (weaponStep rcos rsin delta spatial (weaponControlStep true weapon)).1.triggered = true
        ∧ ∀ delta2 : K,
            ((weaponStep rcos rsin delta spatial
                (weaponControlStep true weapon)).1.cooldown.tick delta2).finished = true →
            (weaponStep rcos rsin delta2 spatial
                (weaponStep rcos rsin delta spatial (weaponControlStep true weapon)).1).2.isSome
              = true
            ∧ (weaponStep rcos rsin delta2 spatial
                (weaponStep rcos rsin delta spatial (weaponControlStep true weapon)).1).1.triggered
              = false) := by
  refine ⟨?_, ?_, ?_, ?_, ?_⟩
  · cases hfin : (weapon.cooldown.tick delta).finished <;>
      cases htr : weapon.triggered <;> simp [weaponStep, hfin, htr]
  · intro h1 h2
    simp [weaponStep, h1, h2]
  · intro h1
    simp [weaponStep, h1]
  · simp [weaponControlStep]
  · intro h1
    simp only [weaponControlStep, Bool.or_true] at h1 ⊢
    refine ⟨by simp [weaponStep, h1], by simp [weaponStep, h1], ?_⟩
    intro delta2 h2
    simp [weaponStep, h1] at h2
    simp [weaponStep, h1, h2]

/-- Witness for C4 at a concrete input: a weapon with a 1/10 second
repeating cooldown that has just been triggered fires a bullet on a tick
of 1/10 seconds and clears the latch. -/
theorem weapon_fires_iff_witness :
    (((⟨⟨1/10, 0, true, false⟩, true⟩ : Weapon ℚ).cooldown.tick (1/10)).finished = true
    ∧ ((weaponStep (fun _ => 1) (fun _ => 0) (1/10) ⟨(0, 0), 0, 12⟩
          (⟨⟨1/10, 0, true, false⟩, true⟩ : Weapon ℚ)).2
        = some ⟨⟨(0, 0) + (12 : ℚ) • ((1 : ℚ), (0 : ℚ)), 0, 2⟩, (1000 : ℚ) • ((1 : ℚ), (0 : ℚ))⟩
      ∧ (weaponStep (fun _ => 1) (fun _ => 0) (1/10) ⟨(0, 0), 0, 12⟩
          (⟨⟨1/10, 0, true, false⟩, true⟩ : Weapon ℚ)).1.triggered = false)) := by
  have hfin : ((⟨⟨1/10, 0, true, false⟩, true⟩ : Weapon ℚ).cooldown.tick (1/10)).finished
      = true := by
    norm_num [Timer.tick]
  exact ⟨hfin,
    (weapon_fires_iff (fun _ => 1) (fun _ => 0) (1/10) ⟨(0, 0), 0, 12⟩
      ⟨⟨1/10, 0, true, false⟩, true⟩).2.1 hfin rfl⟩

theorem rangeContains_iff (r : K × K) (x : K) : rangeContains r x ↔ r.1 ≤ x ∧ x < r.2 :=
  Iff.rfl

theorem mem_collision_asteroidBulletHits (w : List (Entity K)) (aid bid : ℕ) :
    (aid, bid) ∈ (collision_system w).asteroidBulletHits ↔
      ∃ a, a ∈ w ∧ a.asteroid = true ∧ ∃ b, b ∈ w ∧ b.bullet = true
        ∧ a.id = aid ∧ b.id = bid ∧ b.spatial.intersects a.spatial = true := by
  simp only [collision_system, bulletsOf, asteroidsOf, List.mem_flatMap, List.mem_map,
    List.mem_filter, Prod.mk.injEq]
  constructor
  · rintro ⟨b, ⟨hbw, hbb⟩, a, ⟨⟨haw, haa⟩, hint⟩, hida, hidb⟩
    exact ⟨a, haw, haa, b, hbw, hbb, hida, hidb, hint⟩
  · rintro ⟨a, haw, haa, b, hbw, hbb, hida, hidb, hint⟩
    exact ⟨b, ⟨hbw, hbb⟩, a, ⟨⟨haw, haa⟩, hint⟩, hida, hidb⟩

theorem mem_collision_despawns (w : List (Entity K)) (x : ℕ) :
    x ∈ (collision_system w).despawns ↔
      ∃ s, s ∈ w ∧ s.ship = true ∧ ∃ a, a ∈ w ∧ a.asteroid = true
        ∧ a.id = x ∧ s.spatial.intersects a.spatial = true := by
  simp only [collision_system, shipsOf, asteroidsOf, List.mem_flatMap, List.mem_map,
    List.mem_filter]
  constructor
  · rintro ⟨s, ⟨hsw, hss⟩, a, ⟨⟨haw, haa⟩, hint⟩, hida⟩
    exact ⟨s, hsw, hss, a, haw, haa, hida, hint⟩
  · rintro ⟨s, hsw, hss, a, haw, haa, hida, hint⟩
    exact ⟨s, ⟨hsw, hss⟩, a, ⟨⟨haw, haa⟩, hint⟩, hida⟩

/-- C9: a Ship-Asteroid intersection is resolved synchronously inside the
collision pass: the asteroid id is among the despawn commands the pass
itself issues, the Ship-Asteroid hit-event queue stays empty (no deferred
event is queued), and the ship entity — with every one of its components —
survives the application of those despawn commands unchanged, provided the
ship id is not also an asteroid id. -/
theorem collision_ship_asteroid_sync (w : List (Entity K)) (s a : Entity K)
    (hs : s ∈ w) (hship : s.ship = true) (ha : a ∈ w) (hast : a.asteroid = true)
    (hit : s.spatial.intersects a.spatial = true)
    (hid : ∀ x ∈ w, x.asteroid = true → x.id ≠ s.id) :
    a.id ∈ (collision_system w).despawns
    ∧ (collision_system w).shipAsteroidHits = []
    ∧ s ∈ applyDespawns (collision_system w).despawns w := by
  refine ⟨?_, rfl, ?_⟩
  · exact (mem_collision_despawns w a.id).mpr ⟨s, hs, hship, a, ha, hast, rfl, hit⟩
  · have hnot : s.id ∉ (collision_system w).despawns := by
      intro hmem
      obtain ⟨s', _, _, a', ha'w, ha'ast, ha'id, _⟩ := (mem_collision_despawns w s.id).mp hmem
      exact hid a' ha'w ha'ast ha'id
    refine List.mem_filter.mpr ⟨hs, ?_⟩
    simpa using hnot

/-- Ship used by the collision witness. -/
def shipWitness : Entity ℚ := { id := 0, spatial := ⟨(0, 0), 0, 12⟩, ship := true }

/-- Asteroid used by the collision witness, overlapping the ship. -/
def asteroidWitness : Entity ℚ := { id := 1, spatial := ⟨(5, 0), 0, 50⟩, asteroid := true }

/-- World used by the collision witness. -/
def collisionWitnessWorld : List (Entity ℚ) := [shipWitness, asteroidWitness]

/-- Witness for C9 at a concrete input: a ship at the origin and an
overlapping asteroid; the asteroid id 1 is despawned in the pass and the
ship survives unchanged. -/
theorem collision_ship_asteroid_sync_witness :
    (shipWitness.ship = true ∧ asteroidWitness.asteroid = true
      ∧ shipWitness.spatial.intersects asteroidWitness.spatial = true)
    ∧ asteroidWitness.id ∈ (collision_system collisionWitnessWorld).despawns
    ∧ (collision_system collisionWitnessWorld).shipAsteroidHits = []
    ∧ shipWitness
        ∈ applyDespawns (collision_system collisionWitnessWorld).despawns
            collisionWitnessWorld := by
  have hit : shipWitness.spatial.intersects asteroidWitness.spatial = true := by
    simp only [shipWitness, asteroidWitness, Spatial.intersects, len2, decide_eq_true_eq]
    norm_num
  have h := collision_ship_asteroid_sync collisionWitnessWorld shipWitness asteroidWitness
    (by simp [collisionWitnessWorld]) rfl (by simp [collisionWitnessWorld]) rfl hit
    (by
      intro x hx hxa
      simp only [collisionWitnessWorld, List.mem_cons, List.not_mem_nil, or_false] at hx
      rcases hx with h' | h' <;> subst h' <;> simp_all [shipWitness, asteroidWitness])
  exact ⟨⟨rfl, rfl, hit⟩, h.1, h.2.1, h.2.2⟩

theorem len2_nonneg (v : K × K) : 0 ≤ len2 v :=
  add_nonneg (mul_self_nonneg _) (mul_self_nonneg _)

theorem len2_smul (t : K) (v : K × K) : len2 (t • v) = t * t * len2 v := by
  unfold len2
  simp only [Prod.smul_fst, Prod.smul_snd, smul_eq_mul]
  ring

/-- The squared-comparison intersection test of the embedding agrees with
the Euclidean-distance comparison of the source whenever both radii are
non-negative. -/
theorem Spatial.intersects_iff_dist (a b : Spatial ℝ) (ha : 0 ≤ a.radius)
    (hb : 0 ≤ b.radius) :
    a.intersects b = true ↔
      Real.sqrt (len2 (a.position - b.position)) < a.radius + b.radius := by
  unfold Spatial.intersects
  simp only [decide_eq_true_eq]
  have hd : 0 ≤ len2 (a.position - b.position) := len2_nonneg _
  rcases eq_or_lt_of_le (add_nonneg ha hb) with h0 | h0
  · constructor
    · intro h
      exfalso
      rw [← h0] at h
      nlinarith
    · intro h
      exfalso
      rw [← h0] at h
      exact absurd h (not_lt.mpr (Real.sqrt_nonneg _))
  · rw [Real.sqrt_lt' h0]

/-- C3: the collision detector emits an Asteroid-Bullet hit event for a
(bullet, asteroid) pair exactly when the Euclidean distance between their
centers is strictly less than the sum of their radii; it tests every
(Asteroid, Bullet) pair and every (Ship, Asteroid) pair — the full
characterizations below quantify over all pairs of the world — and emits
events for no other pairing (an asteroid-bullet event exists only for an
asteroid paired with a bullet, and ship-asteroid intersections only
produce despawns). -/
theorem collision_emits_iff (w : List (Entity ℝ))
    (hrad : ∀ e ∈ w, 0 ≤ e.spatial.radius) (aid bid : ℕ) :
    ((aid, bid) ∈ (collision_system w).asteroidBulletHits ↔
      ∃ a, a ∈ w ∧ a.asteroid = true ∧ ∃ b, b ∈ w ∧ b.bullet = true
        ∧ a.id = aid ∧ b.id = bid
        ∧ Real.sqrt (len2 (b.spatial.position - a.spatial.position))
            < b.spatial.radius + a.spatial.radius)
    ∧ (∀ x : ℕ, x ∈ (collision_system w).despawns ↔
      ∃ s, s ∈ w ∧ s.ship = true ∧ ∃ a, a ∈ w ∧ a.asteroid = true
        ∧ a.id = x
        ∧ Real.sqrt (len2 (s.spatial.position - a.spatial.position))
            < s.spatial.radius + a.spatial.radius) := by
  constructor
  · rw [mem_collision_asteroidBulletHits]
    apply exists_congr
    intro a
    apply and_congr_right
    intro haw
    apply and_congr_right
    intro _
    apply exists_congr
    intro b
    apply and_congr_right
    intro hbw
    apply and_congr_right
    intro _
    apply and_congr_right
    intro _
    apply and_congr_right
    intro _
    exact Spatial.intersects_iff_dist b.spatial a.spatial (hrad b hbw) (hrad a haw)
  · intro x
    rw [mem_collision_despawns]
    apply exists_congr
    intro s
    apply and_congr_right
    intro hsw
    apply and_congr_right
    intro _
    apply exists_congr
    intro a
    apply and_congr_right
    intro haw
    apply and_congr_right
    intro _
    apply and_congr_right
    intro _
    exact Spatial.intersects_iff_dist s.spatial a.spatial (hrad s hsw) (hrad a haw)

/-- Witness for C3 at a concrete input: a world of one asteroid (id 1) and
one bullet (id 2) with non-negative radii; the event characterization is
obtained at the pair (1, 2). -/
theorem collision_emits_iff_witness :
    (∀ e ∈ ([{ id := 1, spatial := ⟨(0, 0), 0, 50⟩, asteroid := true },
              { id := 2, spatial := ⟨(10, 0), 0, 2⟩, bullet := true }] :
              List (Entity ℝ)), 0 ≤ e.spatial.radius)
    ∧ ((1, 2) ∈ (collision_system
          ([{ id := 1, spatial := ⟨(0, 0), 0, 50⟩, asteroid := true },
            { id := 2, spatial := ⟨(10, 0), 0, 2⟩, bullet := true }] :
            List (Entity ℝ))).asteroidBulletHits ↔
        ∃ a, a ∈ ([{ id := 1, spatial := ⟨(0, 0), 0, 50⟩, asteroid := true },
                   { id := 2, spatial := ⟨(10, 0), 0, 2⟩, bullet := true }] :
                   List (Entity ℝ))
          ∧ a.asteroid = true
          ∧ ∃ b, b ∈ ([{ id := 1, spatial := ⟨(0, 0), 0, 50⟩, asteroid := true },
                       { id := 2, spatial := ⟨(10, 0), 0, 2⟩, bullet := true }] :
                       List (Entity ℝ))
            ∧ b.bullet = true ∧ a.id = 1 ∧ b.id = 2
            ∧ Real.sqrt (len2 (b.spatial.position - a.spatial.position))
                < b.spatial.radius + a.spatial.radius) := by
  have hrad : ∀ e ∈ ([{ id := 1, spatial := ⟨(0, 0), 0, 50⟩, asteroid := true },
      { id := 2, spatial := ⟨(10, 0), 0, 2⟩, bullet := true }] :
      List (Entity ℝ)), 0 ≤ e.spatial.radius := by
    intro e he
    simp only [List.mem_cons, List.not_mem_nil, or_false] at he
    rcases he with h' | h' <;> subst h' <;> norm_num
  exact ⟨hrad,
    (collision_emits_iff
      [{ id := 1, spatial := ⟨(0, 0), 0, 50⟩, asteroid := true },
       { id := 2, spatial := ⟨(10, 0), 0, 2⟩, bullet := true }] hrad 1 2).1⟩

/-- C6: for an entity with `SpeedLimit` L (L ≥ 0) and a velocity, the
speed-limit clamp leaves the velocity magnitude at most L, and when
clamping occurs (the pre-clamp squared magnitude exceeds L squared) the
clamped velocity is exactly L times the unit vector of the original
velocity — the direction unit vector is unchanged — and its magnitude is
exactly L. -/
theorem speed_limit_clamps (e : Entity ℝ) (v : ℝ × ℝ) (l : ℝ)
    (hv : e.velocity = some v) (hl : e.speedLimit = some l) (h0 : 0 ≤ l) :
    ∃ c, (speedLimitStep Real.sqrt e).velocity = some c
      ∧ Real.sqrt (len2 c) ≤ l
      ∧ (l * l < len2 v →
          c = l • ((Real.sqrt (len2 v))⁻¹ • v) ∧ Real.sqrt (len2 c) = l) := by
  refine ⟨clampLengthMax Real.sqrt v l, ?_, ?_, ?_⟩
  · simp [speedLimitStep, hv, hl]
  · by_cases hc : l * l < len2 v
    · have hlen : 0 < len2 v := lt_of_le_of_lt (mul_self_nonneg l) hc
      have hsq : 0 < Real.sqrt (len2 v) := Real.sqrt_pos.mpr hlen
      have hcc : clampLengthMax Real.sqrt v l = (l * (Real.sqrt (len2 v))⁻¹) • v := by
        unfold clampLengthMax
        rw [if_pos hc]
      have hml : len2 (clampLengthMax Real.sqrt v l) = l * l := by
        rw [hcc, len2_smul]
        have hss : Real.sqrt (len2 v) * Real.sqrt (len2 v) = len2 v :=
          Real.mul_self_sqrt hlen.le
        field_simp
      rw [hml, Real.sqrt_mul_self h0]
    · have hcc : clampLengthMax Real.sqrt v l = v := by
        unfold clampLengthMax
        rw [if_neg hc]
      rw [hcc]
      calc Real.sqrt (len2 v) ≤ Real.sqrt (l * l) :=
            Real.sqrt_le_sqrt (by linarith [not_lt.mp hc])
        _ = l := Real.sqrt_mul_self h0
  · intro hc
    have hlen : 0 < len2 v := lt_of_le_of_lt (mul_self_nonneg l) hc
    have hsq : 0 < Real.sqrt (len2 v) := Real.sqrt_pos.mpr hlen
    have hcc : clampLengthMax Real.sqrt v l = (l * (Real.sqrt (len2 v))⁻¹) • v := by
      unfold clampLengthMax
      rw [if_pos hc]
    have hml : len2 (clampLengthMax Real.sqrt v l) = l * l := by
      rw [hcc, len2_smul]
      have hss : Real.sqrt (len2 v) * Real.sqrt (len2 v) = len2 v :=
        Real.mul_self_sqrt hlen.le
      field_simp
    refine ⟨?_, ?_⟩
    · rw [hcc, smul_smul]
    · rw [hml, Real.sqrt_mul_self h0]

/-- Witness for C6 at a concrete input: velocity (3,4) with speed limit
1. -/
theorem speed_limit_clamps_witness :
    (({ id := 0, spatial := ⟨(0, 0), 0, 12⟩, velocity := some (3, 4),
        speedLimit := some 1 } : Entity ℝ).velocity = some (3, 4)
      ∧ (0 : ℝ) ≤ 1)
    ∧ ∃ c, (speedLimitStep Real.sqrt
        ({ id := 0, spatial := ⟨(0, 0), 0, 12⟩, velocity := some (3, 4),
           speedLimit := some 1 } : Entity ℝ)).velocity = some c
      ∧ Real.sqrt (len2 c) ≤ 1
      ∧ ((1 : ℝ) * 1 < len2 ((3 : ℝ), (4 : ℝ)) →
          c = (1 : ℝ) • ((Real.sqrt (len2 ((3 : ℝ), (4 : ℝ))))⁻¹ • ((3 : ℝ), (4 : ℝ)))
          ∧ Real.sqrt (len2 c) = 1) :=
  ⟨⟨rfl, by norm_num⟩,
    speed_limit_clamps
      ({ id := 0, spatial := ⟨(0, 0), 0, 12⟩, velocity := some (3, 4),
         speedLimit := some 1 } : Entity ℝ) (3, 4) 1 rfl rfl (by norm_num)⟩

theorem dampingStep_iterate (e : Entity K) (v : K × K) (f : K)
    (hv : e.velocity = some v) (hf : e.damping = some f) (n : ℕ) :
    dampingStep^[n] e = { e with velocity := some (f ^ n • v) } := by
  induction n with
  | zero =>
    obtain ⟨i, s, ve, rest⟩ := e
    simp only [Option.some.injEq] at hv
    subst hv
    simp
  | succ n ih =>
    rw [Function.iterate_succ_apply', ih]
    simp [dampingStep, hf, smul_smul, pow_succ, mul_comm]

/-- C7: for an entity with a `Damping` factor f in (0,1) and a velocity
(no thrust is applied by the damping system), the velocity magnitude is
non-increasing across any number of damping sub-steps. -/
theorem damping_magnitude_nonincreasing (e : Entity ℝ) (v : ℝ × ℝ) (f : ℝ)
    (hv : e.velocity = some v) (hf : e.damping = some f)
    (h0 : 0 < f) (h1 : f < 1) (n : ℕ) :
    Real.sqrt (len2 ((dampingStep^[n + 1] e).velocity.getD (0, 0)))
      ≤ Real.sqrt (len2 ((dampingStep^[n] e).velocity.getD (0, 0))) := by
  rw [dampingStep_iterate e v f hv hf n, dampingStep_iterate e v f hv hf (n + 1)]
  simp only [Option.getD_some]
  apply Real.sqrt_le_sqrt
  rw [len2_smul, len2_smul]
  have hle : f ^ (n + 1) ≤ f ^ n := pow_le_pow_of_le_one h0.le h1.le (Nat.le_succ n)
  have hpos : 0 < f ^ (n + 1) := pow_pos h0 _
  have hsq : f ^ (n + 1) * f ^ (n + 1) ≤ f ^ n * f ^ n :=
    mul_le_mul hle hle hpos.le (pow_pos h0 n).le
  exact mul_le_mul_of_nonneg_right hsq (len2_nonneg v)

/-- Witness for C7 at a concrete input: damping factor 1/2 on velocity
(3,4), one sub-step after zero sub-steps. -/
theorem damping_magnitude_nonincreasing_witness :
    ((0 : ℝ) < 1/2 ∧ (1/2 : ℝ) < 1)
    ∧ Real.sqrt (len2 ((dampingStep^[1]
        ({ id := 0, spatial := ⟨(0, 0), 0, 12⟩, velocity := some (3, 4),
           damping := some (1/2) } : Entity ℝ)).velocity.getD (0, 0)))
      ≤ Real.sqrt (len2 ((dampingStep^[0]
        ({ id := 0, spatial := ⟨(0, 0), 0, 12⟩, velocity := some (3, 4),
           damping := some (1/2) } : Entity ℝ)).velocity.getD (0, 0))) :=
  ⟨⟨by norm_num, by norm_num⟩,
    damping_magnitude_nonincreasing
      { id := 0, spatial := ⟨(0, 0), 0, 12⟩, velocity := some (3, 4),
        damping := some (1/2) } (3, 4) (1/2) rfl rfl (by norm_num) (by norm_num) 0⟩

theorem len2_pos_of_ne_zero (v : K × K) (h : v ≠ 0) : 0 < len2 v := by
  rcases eq_or_ne v.1 0 with h1 | h1
  · have h2 : v.2 ≠ 0 := by
      intro h2
      exact h (Prod.ext_iff.mpr ⟨h1, h2⟩)
    unfold len2
    nlinarith [mul_self_pos.mpr h2, mul_self_nonneg v.1]
  · unfold len2
    nlinarith [mul_self_pos.mpr h1, mul_self_nonneg v.2]

theorem asteroidSpeedScale_bounds (u radius : K) (h0 : 0 ≤ u) (h1 : u < 1) :
    (rangeContains (BIG_ASTEROID : K × K) radius →
      30 ≤ asteroidSpeedScale u radius ∧ asteroidSpeedScale u radius < 60)
    ∧ (rangeContains (MEDIUM_ASTEROID : K × K) radius →
      60 ≤ asteroidSpeedScale u radius ∧ asteroidSpeedScale u radius < 80)
    ∧ (rangeContains (SMALL_ASTEROID : K × K) radius →
      80 ≤ asteroidSpeedScale u radius ∧ asteroidSpeedScale u radius < 100)
    ∧ 30 ≤ asteroidSpeedScale u radius := by
  have hB := genRange_mem (30 : K) 60 u (by norm_num) h0 h1
  have hM := genRange_mem (60 : K) 80 u (by norm_num) h0 h1
  have hS := genRange_mem (80 : K) 100 u (by norm_num) h0 h1
  unfold asteroidSpeedScale
  by_cases hbig : rangeContains (BIG_ASTEROID : K × K) radius
  · rw [if_pos hbig]
    have hb : (50 : K) ≤ radius ∧ radius < 60 := by
      simpa [rangeContains_iff, BIG_ASTEROID] using hbig
    refine ⟨fun _ => hB, fun hmed => ?_, fun hsm => ?_, hB.1⟩
    · have h2 : (30 : K) ≤ radius ∧ radius < 40 := by
        simpa [rangeContains_iff, MEDIUM_ASTEROID] using hmed
      exact absurd hb.1 (by linarith [h2.2])
    · have h2 : (10 : K) ≤ radius ∧ radius < 20 := by
        simpa [rangeContains_iff, SMALL_ASTEROID] using hsm
      exact absurd hb.1 (by linarith [h2.2])
  · rw [if_neg hbig]
    by_cases hmed : rangeContains (MEDIUM_ASTEROID : K × K) radius
    · rw [if_pos hmed]
      have hm : (30 : K) ≤ radius ∧ radius < 40 := by
        simpa [rangeContains_iff, MEDIUM_ASTEROID] using hmed
      refine ⟨fun h => absurd h hbig, fun _ => hM, fun hsm => ?_, by linarith [hM.1]⟩
      have h2 : (10 : K) ≤ radius ∧ radius < 20 := by
        simpa [rangeContains_iff, SMALL_ASTEROID] using hsm
      exact absurd hm.1 (by linarith [h2.2])
    · rw [if_neg hmed]
      exact ⟨fun h => absurd h hbig, fun h => absurd h hmed, fun _ => hS,
        by linarith [hS.1]⟩

/-- Counterexample for C8 as stated: the generated velocity is not the
spec sentence's normalized direction from the random interior point back
toward the spawn position.  With interior point (0,0), spawn position
(100,0) and scale 40, the code produces velocity (-40,0) (toward the
interior) while the sentence, read literally, gives (40,0). -/
theorem asteroid_velocity_direction_counterexample :
    asteroidVelocity Real.sqrt ((0 : ℝ), (0 : ℝ)) ((100 : ℝ), (0 : ℝ)) 40
      ≠ specAsteroidVelocity Real.sqrt ((0 : ℝ), (0 : ℝ)) ((100 : ℝ), (0 : ℝ)) 40 := by
  have hs : Real.sqrt (10000 : ℝ) = 100 := by
    rw [show (10000 : ℝ) = 100 ^ 2 by norm_num]
    exact Real.sqrt_sq (by norm_num)
  have hn1 : normalizeOrZero Real.sqrt (((0 : ℝ), (0 : ℝ)) - ((100 : ℝ), (0 : ℝ)))
      = ((-1 : ℝ), (0 : ℝ)) := by
    rw [show (((0 : ℝ), (0 : ℝ)) - ((100 : ℝ), (0 : ℝ))) = ((-100 : ℝ), (0 : ℝ)) from by
      rw [Prod.mk_sub_mk]; norm_num]
    unfold normalizeOrZero len2
    rw [show ((-100 : ℝ) * (-100) + 0 * 0) = 10000 by norm_num, hs]
    rw [if_pos (by norm_num : (0 : ℝ) < (100 : ℝ)⁻¹)]
    rw [Prod.smul_mk]
    norm_num
  have hn2 : normalizeOrZero Real.sqrt (((100 : ℝ), (0 : ℝ)) - ((0 : ℝ), (0 : ℝ)))
      = ((1 : ℝ), (0 : ℝ)) := by
    rw [show (((100 : ℝ), (0 : ℝ)) - ((0 : ℝ), (0 : ℝ))) = ((100 : ℝ), (0 : ℝ)) from by
      rw [Prod.mk_sub_mk]; norm_num]
    unfold normalizeOrZero len2
    rw [show ((100 : ℝ) * 100 + 0 * 0) = 10000 by norm_num, hs]
    rw [if_pos (by norm_num : (0 : ℝ) < (100 : ℝ)⁻¹)]
    rw [Prod.smul_mk]
    norm_num
  intro h
  simp only [asteroidVelocity, specAsteroidVelocity] at h
  rw [hn1, hn2, Prod.smul_mk, Prod.smul_mk] at h
  have h1 := congrArg Prod.fst h
  norm_num at h1

/-- C8 as amended: the generated velocity is the normalized direction from
the spawn position toward the random interior point (interior minus
position, normalized), scaled by the size-dependent speed; the speed (the
velocity magnitude) equals the drawn scale, which lies in [30,60) for a
Big radius, [60,80) for Medium and [80,100) otherwise, so an asteroid of
a smaller size class gets a strictly larger speed than one of a larger
size class. -/
theorem asteroid_generation_velocity_amended (u radius : ℝ) (interior position : ℝ × ℝ)
    (h0 : 0 ≤ u) (h1 : u < 1) (hne : interior ≠ position) :
    asteroidVelocity Real.sqrt interior position (asteroidSpeedScale u radius)
        = asteroidSpeedScale u radius
            • ((Real.sqrt (len2 (interior - position)))⁻¹ • (interior - position))
    ∧ Real.sqrt (len2 (asteroidVelocity Real.sqrt interior position
          (asteroidSpeedScale u radius)))
        = asteroidSpeedScale u radius
    ∧ (rangeContains (BIG_ASTEROID : ℝ × ℝ) radius →
        30 ≤ asteroidSpeedScale u radius ∧ asteroidSpeedScale u radius < 60)
    ∧ (rangeContains (MEDIUM_ASTEROID : ℝ × ℝ) radius →
        60 ≤ asteroidSpeedScale u radius ∧ asteroidSpeedScale u radius < 80)
    ∧ (rangeContains (SMALL_ASTEROID : ℝ × ℝ) radius →
        80 ≤ asteroidSpeedScale u radius ∧ asteroidSpeedScale u radius < 100)
    ∧ (∀ u2 radius2 : ℝ, 0 ≤ u2 → u2 < 1 →
        ((rangeContains (MEDIUM_ASTEROID : ℝ × ℝ) radius
            ∧ rangeContains (BIG_ASTEROID : ℝ × ℝ) radius2) →
          asteroidSpeedScale u2 radius2 < asteroidSpeedScale u radius)
        ∧ ((rangeContains (SMALL_ASTEROID : ℝ × ℝ) radius
            ∧ rangeContains (MEDIUM_ASTEROID : ℝ × ℝ) radius2) →
          asteroidSpeedScale u2 radius2 < asteroidSpeedScale u radius)) := by
  have hbounds := asteroidSpeedScale_bounds u radius h0 h1
  have hd : interior - position ≠ 0 := sub_ne_zero.mpr hne
  have hl2 : 0 < len2 (interior - position) := len2_pos_of_ne_zero _ hd
  have hsq : 0 < Real.sqrt (len2 (interior - position)) := Real.sqrt_pos.mpr hl2
  have hnorm : normalizeOrZero Real.sqrt (interior - position)
      = (Real.sqrt (len2 (interior - position)))⁻¹ • (interior - position) := by
    unfold normalizeOrZero
    rw [if_pos (inv_pos.mpr hsq)]
  have hdir : asteroidVelocity Real.sqrt interior position (asteroidSpeedScale u radius)
      = asteroidSpeedScale u radius
          • ((Real.sqrt (len2 (interior - position)))⁻¹ • (interior - position)) := by
    unfold asteroidVelocity
    rw [hnorm]
  have hscale0 : 0 < asteroidSpeedScale u radius := by linarith [hbounds.2.2.2]
  refine ⟨hdir, ?_, hbounds.1, hbounds.2.1, hbounds.2.2.1, ?_⟩
  · rw [hdir, len2_smul, len2_smul]
    have hone : (Real.sqrt (len2 (interior - position)))⁻¹
        * (Real.sqrt (len2 (interior - position)))⁻¹ * len2 (interior - position) = 1 := by
      rw [← Real.mul_self_sqrt hl2.le]
      field_simp
    rw [hone, mul_one, Real.sqrt_mul_self hscale0.le]
  · intro u2 radius2 h02 h12
    have hbounds2 := asteroidSpeedScale_bounds u2 radius2 h02 h12
    constructor
    · rintro ⟨hm, hb2⟩
      have e1 := hbounds.2.1 hm
      have e2 := hbounds2.1 hb2
      linarith [e1.1, e2.2]
    · rintro ⟨hsm, hm2⟩
      have e1 := hbounds.2.2.1 hsm
      have e2 := hbounds2.2.1 hm2
      linarith [e1.1, e2.2]

/-- Witness for the amended C8 at a concrete input: interior point (0,0),
spawn position (100,0), sample 1/2, radius 55. -/
theorem asteroid_generation_velocity_amended_witness :
    ((0 : ℝ) ≤ 1/2 ∧ (1/2 : ℝ) < 1
      ∧ (((0 : ℝ), (0 : ℝ)) : ℝ × ℝ) ≠ ((100 : ℝ), (0 : ℝ)))
    ∧ asteroidVelocity Real.sqrt ((0 : ℝ), (0 : ℝ)) ((100 : ℝ), (0 : ℝ))
        (asteroidSpeedScale (1/2) 55)
      = asteroidSpeedScale (1/2 : ℝ) 55
          • ((Real.sqrt (len2 ((((0 : ℝ), (0 : ℝ)) : ℝ × ℝ) - ((100 : ℝ), (0 : ℝ)))))⁻¹
              • ((((0 : ℝ), (0 : ℝ)) : ℝ × ℝ) - ((100 : ℝ), (0 : ℝ)))) := by
  have hne : (((0 : ℝ), (0 : ℝ)) : ℝ × ℝ) ≠ ((100 : ℝ), (0 : ℝ)) := by
    intro h
    have := congrArg Prod.fst h
    norm_num at this
  exact ⟨⟨by norm_num, by norm_num, hne⟩,
    (asteroid_generation_velocity_amended (1/2) 55 ((0 : ℝ), (0 : ℝ)) ((100 : ℝ), (0 : ℝ))
      (by norm_num) (by norm_num) hne).1⟩

end Factoroids
